import Mathlib

/-!
Verification of the lead-capture landing page: phone formatting, the two
submission API routes, the phone-validation proxy route and the client form
component, embedded as pure Lean functions with explicit oracles for the
network and for the clock.
-/

namespace GSB

/-- JavaScript truthiness for an optional string field: absent and the empty
string are falsy, every other string is truthy. -/
def truthy : Option String → Bool
  | none => false
  | some s => !s.isEmpty

/-- The expression o or-else d of JavaScript, where a missing or empty string
falls back to the default d. -/
def jsOr (o : Option String) (d : String) : String :=
  match o with
  | none => d
  | some s => if s.isEmpty then d else s

/-- Template-literal rendering of a possibly absent string: JavaScript prints
the word undefined for a missing value. -/
def tmpl (o : Option String) : String := o.getD "undefined"

/-- The digit filter of value.replace on the pattern non-digit with empty
string, at the level of character lists. -/
def digitsL (l : List Char) : List Char := l.filter Char.isDigit

/-- value.replace of all non-digits by the empty string. -/
def digitsOf (s : String) : String := String.mk (digitsL s.data)

/-- Test of the anchored regex for the display phone format: an opening
parenthesis, three digits, a closing parenthesis, a space, three digits, a
hyphen and four digits. -/
def phoneRegexL (l : List Char) : Bool :=
  (l.length == 14) &&
  (l.take 1 == ['(']) &&
  ((l.drop 1).take 3).all Char.isDigit &&
  ((l.drop 4).take 2 == [')', ' ']) &&
  ((l.drop 6).take 3).all Char.isDigit &&
  ((l.drop 9).take 1 == ['-']) &&
  ((l.drop 10).take 4).all Char.isDigit

/-- phoneRegex.test of the route handlers and of the form component. -/
def phoneRegexTest (s : String) : Bool := phoneRegexL s.data

/-- Shape of the fully formatted phone string built from a digit list of
length at least seven: the first ten digits laid out in display format. -/
def fmtFull (q : List Char) : List Char :=
  '(' :: q.take 3 ++ ')' :: ' ' :: (q.drop 3).take 3 ++ '-' :: (q.drop 6).take 4

/-- Progressive layout of a digit string in display format: fewer than four
digits stay bare, fewer than seven get the parenthesised area code, otherwise
the first ten digits are laid out fully. -/
def layoutDigits (phone : List Char) : List Char :=
  if phone.length < 4 then phone
  else if phone.length < 7 then '(' :: phone.take 3 ++ ')' :: ' ' :: phone.drop 3
  else fmtFull phone

/-- formatPhoneNumber of the form component, on character lists: strip
non-digits, then lay the digits out progressively in display format. -/
def formatPhoneL (l : List Char) : List Char := layoutDigits (digitsL l)

/-- formatPhoneNumber of the form component. -/
def formatPhoneNumber (s : String) : String := String.mk (formatPhoneL s.data)

lemma digitsL_mem_isDigit {l : List Char} {c : Char} (h : c ∈ digitsL l) :
    c.isDigit = true :=
  List.of_mem_filter h

lemma digitsL_idem (l : List Char) : digitsL (digitsL l) = digitsL l :=
  List.filter_eq_self.mpr fun _ h => digitsL_mem_isDigit h

lemma digitsL_eq_self {l : List Char} (h : ∀ c ∈ l, c.isDigit = true) :
    digitsL l = l :=
  List.filter_eq_self.mpr h

lemma isDigit_lparen : Char.isDigit '(' = false := by decide

lemma isDigit_rparen : Char.isDigit ')' = false := by decide

lemma isDigit_space : Char.isDigit ' ' = false := by decide

lemma isDigit_hyphen : Char.isDigit '-' = false := by decide

lemma digitsL_take {l : List Char} (h : ∀ c ∈ l, c.isDigit = true) (n : Nat) :
    digitsL (l.take n) = l.take n :=
  digitsL_eq_self fun c hc => h c (List.take_subset n l hc)

lemma digitsL_drop {l : List Char} (h : ∀ c ∈ l, c.isDigit = true) (n : Nat) :
    digitsL (l.drop n) = l.drop n :=
  digitsL_eq_self fun c hc => h c (List.drop_subset n l hc)

lemma digitsL_cons_nondigit {c : Char} (h : c.isDigit = false) (l : List Char) :
    digitsL (c :: l) = digitsL l := by
  simp [digitsL, List.filter_cons, h]

lemma digitsL_append (l₁ l₂ : List Char) :
    digitsL (l₁ ++ l₂) = digitsL l₁ ++ digitsL l₂ :=
  List.filter_append l₁ l₂

/-- The digits surviving in the layout of an all-digit string are that string,
truncated to ten when at least seven digits were present. -/
lemma digitsL_layoutDigits {p : List Char} (hall : ∀ c ∈ p, c.isDigit = true) :
    digitsL (layoutDigits p) = if p.length < 7 then p else p.take 10 := by
  unfold layoutDigits fmtFull
  by_cases h4 : p.length < 4
  · rw [if_pos h4, if_pos (by omega), digitsL_eq_self hall]
  · by_cases h7 : p.length < 7
    · rw [if_neg h4, if_pos h7, if_pos h7]
      rw [digitsL_append, digitsL_cons_nondigit isDigit_lparen,
        digitsL_cons_nondigit isDigit_rparen, digitsL_cons_nondigit isDigit_space,
        digitsL_take hall, digitsL_drop hall]
      exact List.take_append_drop 3 p
    · rw [if_neg h4, if_neg h7, if_neg h7]
      rw [digitsL_append, digitsL_append, digitsL_cons_nondigit isDigit_lparen,
        digitsL_cons_nondigit isDigit_rparen, digitsL_cons_nondigit isDigit_space,
        digitsL_cons_nondigit isDigit_hyphen,
        digitsL_take hall,
        digitsL_eq_self (fun c hc => hall c (List.drop_subset 3 p (List.take_subset 3 _ hc))),
        digitsL_eq_self (fun c hc => hall c (List.drop_subset 6 p (List.take_subset 4 _ hc)))]
      have h10 : p.take 10 = p.take 3 ++ ((p.drop 3).take 3 ++ (p.drop 6).take 4) := by
        have t1 : p.take 10 = p.take 3 ++ (p.drop 3).take 7 := by
          have := List.take_add p 3 7
          simpa using this
        have t2 : (p.drop 3).take 7 = (p.drop 3).take 3 ++ ((p.drop 3).drop 3).take 4 := by
          have := List.take_add (p.drop 3) 3 4
          simpa using this
        rw [t1, t2, List.drop_drop]
      rw [h10, List.append_assoc]

/-- The digits surviving in the output of formatting. -/
lemma digitsL_formatPhoneL (l : List Char) :
    digitsL (formatPhoneL l) =
      if (digitsL l).length < 7 then digitsL l else (digitsL l).take 10 :=
  digitsL_layoutDigits fun _ h => digitsL_mem_isDigit h

/-- fmtFull only looks at the first ten characters of its argument. -/
lemma fmtFull_take (p : List Char) : fmtFull (p.take 10) = fmtFull p := by
  unfold fmtFull
  have e1 : (p.take 10).take 3 = p.take 3 := by rw [List.take_take]; norm_num
  have e2 : (p.take 10).drop 3 = (p.drop 3).take 7 := by rw [List.drop_take]
  have e3 : ((p.drop 3).take 7).take 3 = (p.drop 3).take 3 := by
    rw [List.take_take]; norm_num
  have e4 : (p.take 10).drop 6 = (p.drop 6).take 4 := by rw [List.drop_take]
  have e5 : ((p.drop 6).take 4).take 4 = (p.drop 6).take 4 := by
    rw [List.take_take]; norm_num
  rw [e1, e2, e3, e4, e5]

/-- Re-formatting the output of formatPhoneNumber gives it back unchanged. -/
lemma formatPhoneL_idem (l : List Char) :
    formatPhoneL (formatPhoneL l) = formatPhoneL l := by
  have hd := digitsL_formatPhoneL l
  show layoutDigits (digitsL (formatPhoneL l)) = formatPhoneL l
  rw [hd]
  by_cases h7 : (digitsL l).length < 7
  · rw [if_pos h7]; rfl
  · rw [if_neg h7]
    have hlen : 7 ≤ ((digitsL l).take 10).length := by
      rw [List.length_take]; omega
    show layoutDigits ((digitsL l).take 10) = layoutDigits (digitsL l)
    unfold layoutDigits
    rw [if_neg (by omega), if_neg (by omega), if_neg (by omega), if_neg h7]
    exact fmtFull_take (digitsL l)

/-- A digit list of length at least ten laid out by fmtFull passes the
display-format regex. -/
lemma phoneRegexL_fmtFull {p : List Char} (hlen : 10 ≤ p.length)
    (hdig : ∀ c ∈ p, c.isDigit = true) : phoneRegexL (fmtFull p) = true := by
  rcases p with _ | ⟨a, p⟩; · simp at hlen
  rcases p with _ | ⟨b, p⟩; · simp at hlen
  rcases p with _ | ⟨c, p⟩; · simp at hlen
  rcases p with _ | ⟨d, p⟩; · simp at hlen
  rcases p with _ | ⟨e, p⟩; · simp at hlen
  rcases p with _ | ⟨f, p⟩; · simp at hlen
  rcases p with _ | ⟨g, p⟩; · simp at hlen
  rcases p with _ | ⟨h, p⟩; · simp at hlen
  rcases p with _ | ⟨i, p⟩; · simp at hlen
  rcases p with _ | ⟨j, p⟩; · simp at hlen
  have hs : ∀ x ∈ [a, b, c, d, e, f, g, h, i, j], x.isDigit = true := by
    intro x hx
    apply hdig
    simp only [List.mem_cons] at hx ⊢
    tauto
  simp only [fmtFull, phoneRegexL, List.take, List.drop, List.all_cons, List.all_nil,
    List.cons_append, List.nil_append, List.length_cons, List.length_append]
  simp [hs a (by simp), hs b (by simp), hs c (by simp), hs d (by simp),
    hs e (by simp), hs f (by simp), hs g (by simp), hs h (by simp),
    hs i (by simp), hs j (by simp)]

/-- With between four and nine digits, the layout is a strict prefix of some
string in full display format, obtained by padding the digits with zeros. -/
lemma layoutDigits_prefix_full {p : List Char} (h4 : 4 ≤ p.length)
    (h10 : p.length < 10) (hdig : ∀ c ∈ p, c.isDigit = true) :
    ∃ full : List Char, phoneRegexL full = true ∧ layoutDigits p <+: full := by
  set pad : List Char := List.replicate (10 - p.length) '0' with hpad
  set q : List Char := p ++ pad with hq
  have hqlen : q.length = 10 := by
    rw [hq, List.length_append, hpad, List.length_replicate]; omega
  have hqdig : ∀ c ∈ q, c.isDigit = true := by
    intro c hc
    rcases List.mem_append.mp hc with h | h
    · exact hdig c h
    · rw [List.eq_of_mem_replicate h]; decide
  refine ⟨fmtFull q, phoneRegexL_fmtFull (by omega) hqdig, ?_⟩
  have ht3 : q.take 3 = p.take 3 := List.take_append_of_le_length (by omega)
  have hd3 : q.drop 3 = p.drop 3 ++ pad := List.drop_append_of_le_length (by omega)
  by_cases h7 : p.length < 7
  · have hlay : layoutDigits p = '(' :: p.take 3 ++ ')' :: ' ' :: p.drop 3 := by
      unfold layoutDigits
      rw [if_neg (by omega), if_pos h7]
    have hxlen : (p.drop 3).length ≤ 3 := by rw [List.length_drop]; omega
    have htake : (q.drop 3).take 3 = p.drop 3 ++ pad.take (3 - (p.drop 3).length) := by
      rw [hd3, List.take_append_eq_append_take, List.take_of_length_le hxlen]
    refine ⟨pad.take (3 - (p.drop 3).length) ++ '-' :: (q.drop 6).take 4, ?_⟩
    rw [hlay]
    unfold fmtFull
    rw [ht3, htake]
    simp [List.append_assoc]
  · have hlay : layoutDigits p = fmtFull p := by
      unfold layoutDigits
      rw [if_neg (by omega), if_neg h7]
    have htake3 : (q.drop 3).take 3 = (p.drop 3).take 3 := by
      rw [hd3]
      exact List.take_append_of_le_length (by rw [List.length_drop]; omega)
    have hd6 : q.drop 6 = p.drop 6 ++ pad := List.drop_append_of_le_length (by omega)
    have hx6 : (p.drop 6).length ≤ 4 := by rw [List.length_drop]; omega
    have htake4 : (q.drop 6).take 4 = p.drop 6 ++ pad.take (4 - (p.drop 6).length) := by
      rw [hd6, List.take_append_eq_append_take, List.take_of_length_le hx6]
    refine ⟨pad.take (4 - (p.drop 6).length), ?_⟩
    rw [hlay]
    unfold fmtFull
    rw [ht3, htake3, htake4, List.take_of_length_le hx6]
    simp [List.append_assoc]

/-- C4 (amended): formatPhoneNumber yields a full display-format match once
ten digits are present, a strict prefix of a display-format string when
four to nine digits are present, the bare digit string when fewer than four
digits are present, and is idempotent on its own output. -/
theorem formatPhoneNumber_progressive_layout_and_idempotent (s : String) :
    (10 ≤ (digitsOf s).length → phoneRegexTest (formatPhoneNumber s) = true)
    ∧ (4 ≤ (digitsOf s).length → (digitsOf s).length < 10 →
        ∃ full : String, phoneRegexTest full = true ∧
          List.IsPrefix (formatPhoneNumber s).data full.data)
    ∧ ((digitsOf s).length < 4 → formatPhoneNumber s = digitsOf s)
    ∧ formatPhoneNumber (formatPhoneNumber s) = formatPhoneNumber s := by
  have hlen : (digitsOf s).length = (digitsL s.data).length := rfl
  have hdig : ∀ c ∈ digitsL s.data, c.isDigit = true :=
    fun _ h => digitsL_mem_isDigit h
  refine ⟨?_, ?_, ?_, ?_⟩
  · intro h10
    rw [hlen] at h10
    show phoneRegexL (layoutDigits (digitsL s.data)) = true
    unfold layoutDigits
    rw [if_neg (by omega), if_neg (by omega)]
    exact phoneRegexL_fmtFull h10 hdig
  · intro h4 h10
    rw [hlen] at h4 h10
    obtain ⟨full, hre, hpre⟩ := layoutDigits_prefix_full h4 h10 hdig
    exact ⟨String.mk full, hre, hpre⟩
  · intro h4
    rw [hlen] at h4
    show String.mk (layoutDigits (digitsL s.data)) = digitsOf s
    unfold layoutDigits
    rw [if_pos h4]
    rfl
  · exact congrArg String.mk (formatPhoneL_idem s.data)

/-- C4 witness: on a concrete ten-digit input the formatter emits a string in
full display format. -/
theorem formatPhoneNumber_progressive_layout_witness :
    phoneRegexTest (formatPhoneNumber "5551234567") = true :=
  (formatPhoneNumber_progressive_layout_and_idempotent "5551234567").1 (by decide)

/-- C4 counterexample: with a single digit entered the output is the bare
digit string, which is not a prefix of any string in the display format,
since every such string starts with an opening parenthesis. -/
theorem formatPhoneNumber_prefix_counterexample :
    formatPhoneNumber "1" = "1" ∧
    ¬ ∃ full : String, phoneRegexTest full = true ∧
        List.IsPrefix (formatPhoneNumber "1").data full.data := by
  constructor
  · decide
  · rintro ⟨full, hre, t, ht⟩
    have hdata : (formatPhoneNumber "1").data = ['1'] := by decide
    rw [hdata] at ht
    have hfull : full.data = '1' :: t := by rw [← ht]; rfl
    have hre2 : phoneRegexL ('1' :: t) = true := by
      rw [← hfull]; exact hre
    have hne : ((['1'] : List Char) == ['(']) = false := by decide
    simp [phoneRegexL, List.take_succ_cons, hne] at hre2

namespace SubmitPartial

/-- Request body of the partial-submission route: every field is optional in
the incoming JSON; consent is a boolean that defaults to false when absent. -/
structure PartialPayload where
  address : Option String
  phone : Option String
  consent : Bool
  placeId : Option String
  leadId : Option String
deriving DecidableEq

/-- validatePartialData of the partial route: address and phone must be
present and the phone must match the display-format regex. -/
def validatePartialData (d : PartialPayload) : Bool :=
  if !truthy d.address || !truthy d.phone then false
  else if !phoneRegexTest (d.phone.getD "") then false
  else true

/-- The notes text assembled for a partial lead. -/
def partialNotes (d : PartialPayload) (nowStr : String) : String :=
  let n := "Initial Lead Submission (" ++ nowStr ++ "):\n"
  let n := n ++ "- Property Address: " ++ jsOr d.address "Not provided" ++ "\n"
  let n := n ++ "- Phone: " ++ jsOr d.phone "Not provided" ++ "\n"
  let n := if d.consent then n ++ "- Consent: Granted\n" else n
  let n := if truthy d.placeId then n ++ "- Google Place ID: " ++ d.placeId.getD "" ++ "\n" else n
  let n := if truthy d.leadId then n ++ "- Lead ID: " ++ d.leadId.getD "" ++ "\n" else n
  n

/-- The contact record shipped to the CRM by the partial route. -/
structure PartialContactData where
  name : String
  phone : String
  address1 : String
  tags : List String
  notes : String
  leadId : Option String
deriving DecidableEq

/-- contactData as built by sendToGoHighLevel of the partial route. -/
def partialContactData (d : PartialPayload) (nowStr : String) : PartialContactData :=
  { name := "Property Lead"
  , phone := if truthy d.phone then digitsOf (d.phone.getD "") else ""
  , address1 := jsOr d.address ""
  , tags := ["Website Lead", "Partial Lead"]
  , notes := partialNotes d nowStr
  , leadId := d.leadId }

/-- leadId generated at the top of the partial POST handler from the clock in
epoch milliseconds and a random base36 suffix. -/
def leadIdGen (nowMs : Nat) (rand : String) : String :=
  "lead_" ++ toString nowMs ++ "_" ++ rand

/-- Observable outcome of one call to the partial POST handler: the HTTP
status, whether a CRM request was issued, the contact record sent if so, and
the leadId returned on success. -/
structure PartialRouteResult where
  status : Nat
  crmCalled : Bool
  crmPayload : Option PartialContactData
  leadIdOut : Option String
deriving DecidableEq

/-- POST handler of the partial-submission route. rateLimitOk is the rate
limiter verdict, body the parsed JSON (none for a parse failure), credsOk
whether the CRM credentials are configured, respOk the CRM response status,
nowMs and rand the clock and randomness draws, nowStr the formatted clock. -/
def submitPartialPOST (rateLimitOk : Bool) (body : Option PartialPayload)
    (credsOk : Bool) (respOk : Bool) (nowMs : Nat) (rand : String)
    (nowStr : String) : PartialRouteResult :=
  let leadId := leadIdGen nowMs rand
  if !rateLimitOk then ⟨429, false, none, none⟩
  else
    match body with
    | none => ⟨400, false, none, none⟩
    | some d =>
      if !validatePartialData d then ⟨400, false, none, none⟩
      else
        let leadData : PartialPayload := { d with leadId := some leadId }
        if !credsOk then ⟨500, false, none, none⟩
        else
          let contact := partialContactData leadData nowStr
          if respOk then ⟨200, true, some contact, some leadId⟩
          else ⟨500, true, some contact, none⟩

/-- C8: a partial payload with address or phone missing, or with a phone not
in display format, is answered with status 400 and no CRM request. -/
theorem submitPartial_invalid_payload_400_no_crm
    (d : PartialPayload) (credsOk respOk : Bool) (nowMs : Nat) (rand nowStr : String)
    (h : truthy d.address = false ∨ truthy d.phone = false ∨
      phoneRegexTest (d.phone.getD "") = false) :
    (submitPartialPOST true (some d) credsOk respOk nowMs rand nowStr).status = 400 ∧
    (submitPartialPOST true (some d) credsOk respOk nowMs rand nowStr).crmCalled = false := by
  have hv : validatePartialData d = false := by
    unfold validatePartialData
    rcases h with h | h | h <;> simp [h]
  constructor <;> simp [submitPartialPOST, hv]

/-- C8 witness: a concrete payload carrying an address but no phone is
rejected with 400 and the CRM is not contacted. -/
theorem submitPartial_invalid_payload_400_no_crm_witness :
    (submitPartialPOST true (some ⟨some "123 Main St", none, true, none, none⟩)
        true true 17 "abc123def" "1/1/2025").status = 400 ∧
    (submitPartialPOST true (some ⟨some "123 Main St", none, true, none, none⟩)
        true true 17 "abc123def" "1/1/2025").crmCalled = false :=
  submitPartial_invalid_payload_400_no_crm
    ⟨some "123 Main St", none, true, none, none⟩ true true 17 "abc123def" "1/1/2025"
    (by decide)

/-- C2 counterexample: a payload with a valid address and phone but with
consent false is still forwarded to the CRM and answered with success. -/
theorem submitPartial_consent_not_required_counterexample :
    (⟨some "123 Main St", some "(555) 555-5555", false, none, none⟩ :
        PartialPayload).consent = false ∧
    (submitPartialPOST true
        (some ⟨some "123 Main St", some "(555) 555-5555", false, none, none⟩)
        true true 0 "abc123def" "1/1/2025").crmCalled = true ∧
    (submitPartialPOST true
        (some ⟨some "123 Main St", some "(555) 555-5555", false, none, none⟩)
        true true 0 "abc123def" "1/1/2025").status = 200 := by
  refine ⟨rfl, ?_, ?_⟩ <;> decide

/-- C2 (amended): the partial route forwards a payload to the CRM exactly
when the credentials are configured, the address is present and the phone
matches the display format; consent is not checked by the endpoint. -/
theorem submitPartial_forwards_iff_address_and_phone
    (d : PartialPayload) (credsOk respOk : Bool) (nowMs : Nat) (rand nowStr : String) :
    (submitPartialPOST true (some d) credsOk respOk nowMs rand nowStr).crmCalled = true ↔
      (credsOk = true ∧ truthy d.address = true ∧ truthy d.phone = true ∧
        phoneRegexTest (d.phone.getD "") = true) := by
  unfold submitPartialPOST validatePartialData
  by_cases ha : truthy d.address <;>
    by_cases hp : truthy d.phone <;>
      by_cases hr : phoneRegexTest (d.phone.getD "") <;>
        cases credsOk <;> cases respOk <;>
          simp [ha, hp, hr]

/-- validatePartialData ignores the leadId field of the payload. -/
lemma validatePartialData_set_leadId (d : PartialPayload) (lid : Option String) :
    validatePartialData { d with leadId := lid } = validatePartialData d := rfl

/-- C10 (amended): whenever the partial route reaches the CRM dispatch, the
contact record carries the freshly generated leadId of shape
lead_(epoch)_(suffix), regardless of any caller-supplied leadId, and the
same id is returned on success; ids of two runs coincide exactly when their
clock and randomness draws produce the same string. -/
theorem submitPartial_leadId_freshly_generated
    (d : PartialPayload) (lid : Option String) (respOk : Bool) (nowMs : Nat)
    (rand nowStr : String) (hv : validatePartialData d = true) :
    ((submitPartialPOST true (some { d with leadId := lid }) true respOk nowMs rand
        nowStr).crmPayload.map PartialContactData.leadId
      = some (some (leadIdGen nowMs rand))) ∧
    (respOk = true →
      (submitPartialPOST true (some { d with leadId := lid }) true respOk nowMs rand
          nowStr).leadIdOut = some (leadIdGen nowMs rand)) := by
  cases respOk <;>
    simp [submitPartialPOST, validatePartialData_set_leadId, hv, partialContactData]

/-- C10 witness: at a concrete valid payload carrying a caller-supplied
leadId, the CRM record and the response carry the generated id instead. -/
theorem submitPartial_leadId_freshly_generated_witness :
    ((submitPartialPOST true
        (some ⟨some "123 Main St", some "(555) 555-5555", true, none, some "caller-id"⟩)
        true true 42 "zzz999" "1/1/2025").crmPayload.map PartialContactData.leadId
      = some (some "lead_42_zzz999")) := by
  have h := submitPartial_leadId_freshly_generated
    ⟨some "123 Main St", some "(555) 555-5555", true, none, none⟩
    (some "caller-id") true 42 "zzz999" "1/1/2025" (by decide)
  exact h.1

/-- C10 counterexample: two successful partial submissions whose clock and
randomness draws coincide return the same leadId, so the ids are not always
distinct. -/
theorem submitPartial_leadId_collision_counterexample :
    (submitPartialPOST true
        (some ⟨some "123 Main St", some "(555) 555-5555", true, none, some "id-one"⟩)
        true true 7 "abc" "1/1/2025").status = 200 ∧
    (submitPartialPOST true
        (some ⟨some "456 Oak Ave", some "(222) 333-4444", true, none, some "id-two"⟩)
        true true 7 "abc" "1/1/2025").status = 200 ∧
    (submitPartialPOST true
        (some ⟨some "123 Main St", some "(555) 555-5555", true, none, some "id-one"⟩)
        true true 7 "abc" "1/1/2025").leadIdOut =
      (submitPartialPOST true
        (some ⟨some "456 Oak Ave", some "(222) 333-4444", true, none, some "id-two"⟩)
        true true 7 "abc" "1/1/2025").leadIdOut := by
  refine ⟨?_, ?_, ?_⟩ <;> decide

end SubmitPartial

namespace ValidatePhone

/-- Parsed body of a provider response when the HTTP round trip succeeded:
apiError models data.success being the literal false, the other fields carry
the provider verdict. -/
structure ProviderData where
  apiError : Bool
  valid : Bool
  lineType : String
  carrier : String
deriving DecidableEq

/-- Observable outcome of the validate-phone POST handler. -/
structure PhoneRouteResult where
  status : Nat
  isValid : Option Bool
  lineType : Option String
  isValidLead : Option Bool
  numberSent : Option String
deriving DecidableEq

/-- POST handler of the validate-phone proxy route: reject a missing number,
prepend the country code 1 when absent, fail on missing credentials or on a
network error (provider none), surface provider-reported input errors as 400,
and otherwise derive isValidLead from validity and line type. -/
def validatePhonePOST (phoneNumber : Option String) (keyConfigured : Bool)
    (provider : Option ProviderData) : PhoneRouteResult :=
  match phoneNumber with
  | none => ⟨400, none, none, none, none⟩
  | some pn =>
    if pn.isEmpty then ⟨400, none, none, none, none⟩
    else
      let pn := if pn.startsWith "1" then pn else "1" ++ pn
      if !keyConfigured then ⟨500, none, none, none, none⟩
      else
        match provider with
        | none => ⟨500, none, none, none, some pn⟩
        | some pd =>
          if pd.apiError then ⟨400, none, none, none, some pn⟩
          else
            let isValidLead :=
              pd.valid && (pd.lineType == "mobile" || pd.lineType == "landline")
            ⟨200, some pd.valid, some pd.lineType, some isValidLead, some pn⟩

/-- C5: on every provider response that reaches the derivation, the endpoint
returns isValidLead equal to the conjunction of validity with the line type
being mobile or landline; any other line type yields false even for a valid
number. -/
theorem validatePhone_isValidLead_conjunction (pn : String) (pd : ProviderData)
    (hpn : pn.isEmpty = false) (herr : pd.apiError = false) :
    ((validatePhonePOST (some pn) true (some pd)).isValidLead
      = some (pd.valid && (pd.lineType == "mobile" || pd.lineType == "landline")))
    ∧ (pd.lineType ≠ "mobile" → pd.lineType ≠ "landline" →
        (validatePhonePOST (some pn) true (some pd)).isValidLead = some false) := by
  constructor
  · simp [validatePhonePOST, hpn, herr]
  · intro hm hl
    simp [validatePhonePOST, hpn, herr, hm, hl]

/-- C5 witness: a number the provider reports as valid but of line type voip
is rejected as a lead. -/
theorem validatePhone_isValidLead_conjunction_witness :
    (validatePhonePOST (some "5551234567") true
        (some ⟨false, true, "voip", "ExampleCarrier"⟩)).isValidLead = some false :=
  (validatePhone_isValidLead_conjunction "5551234567"
      ⟨false, true, "voip", "ExampleCarrier"⟩ (by decide) rfl).2
    (by decide) (by decide)

end ValidatePhone

namespace SubmitComplete

/-- Request body of the complete-submission route. -/
structure CompletePayload where
  address : Option String
  phone : Option String
  firstName : Option String
  lastName : Option String
  email : Option String
  propertyCondition : Option String
  timeframe : Option String
  price : Option String
  leadId : Option String
  streetAddress : Option String
  city : Option String
  state : Option String
  postalCode : Option String
  placeId : Option String
  isPropertyListed : Bool
  comments : Option String
  referralSource : Option String
  timestamp : Option String
deriving DecidableEq

/-- First required field of the complete payload that is missing or falsy, in
the order the route checks them. -/
def requiredFieldMissing (d : CompletePayload) : Option String :=
  if !truthy d.address then some "address"
  else if !truthy d.phone then some "phone"
  else if !truthy d.firstName then some "firstName"
  else if !truthy d.lastName then some "lastName"
  else if !truthy d.email then some "email"
  else if !truthy d.propertyCondition then some "propertyCondition"
  else if !truthy d.timeframe then some "timeframe"
  else if !truthy d.price then some "price"
  else if !truthy d.leadId then some "leadId"
  else none

/-- validateFormData of the complete route: a missing required field or a
phone outside display format raises (error); otherwise the function returns
true. It never returns false. -/
def validateFormData (d : CompletePayload) : Except String Bool :=
  match requiredFieldMissing d with
  | some f => Except.error (f ++ " is required")
  | none =>
    if !phoneRegexTest (d.phone.getD "") then Except.error "Invalid phone number format"
    else Except.ok true

/-- The labelled free-text notes block assembled for a complete lead. -/
def completeNotes (d : CompletePayload) (nowStr : String) : String :=
  let n := "Complete Lead Submission (" ++ nowStr ++ "):\n\n"
  let n := n ++ "PROPERTY INFORMATION:\n"
  let n := n ++ "- Property Address: " ++ jsOr d.address "Not provided" ++ "\n"
  let n := if truthy d.streetAddress then n ++ "- Street Address: " ++ d.streetAddress.getD "" ++ "\n" else n
  let n := if truthy d.city then n ++ "- City: " ++ d.city.getD "" ++ "\n" else n
  let n := if truthy d.state then n ++ "- State: " ++ d.state.getD "" ++ "\n" else n
  let n := if truthy d.postalCode then n ++ "- Postal Code: " ++ d.postalCode.getD "" ++ "\n" else n
  let n := if truthy d.placeId then n ++ "- Google Place ID: " ++ d.placeId.getD "" ++ "\n" else n
  let n := n ++ "- Property Condition: " ++ jsOr d.propertyCondition "Not provided" ++ "\n"
  let n := n ++ "- Is Property Listed: " ++ (if d.isPropertyListed then "Yes" else "No") ++ "\n"
  let n := n ++ "- Asking Price: " ++ jsOr d.price "Not provided" ++ "\n"
  let n := n ++ "- Timeframe: " ++ jsOr d.timeframe "Not provided" ++ "\n"
  let n := n ++ "\nCONTACT INFORMATION:\n"
  let n := n ++ "- Full Name: " ++ tmpl d.firstName ++ " " ++ tmpl d.lastName ++ "\n"
  let n := n ++ "- Phone: " ++ tmpl d.phone ++ "\n"
  let n := n ++ "- Email: " ++ tmpl d.email ++ "\n"
  let n := n ++ "\nADDITIONAL DETAILS:\n"
  let n := n ++ "- Lead ID: " ++ tmpl d.leadId ++ "\n"
  let n := n ++ "- Initial Submission: " ++ jsOr d.timestamp "Unknown" ++ "\n"
  let n := n ++ "- Complete Submission: " ++ nowStr ++ "\n"
  let n := if truthy d.comments then n ++ "\nCOMMENTS:\n" ++ d.comments.getD "" ++ "\n" else n
  let n := if truthy d.referralSource then n ++ "\nReferral Source: " ++ d.referralSource.getD "" ++ "\n" else n
  n

/-- The final CRM write issued by the complete dispatch. -/
inductive GhlCall where
  | update (contactId : String) (notes : String)
  | create (notes : String)
deriving DecidableEq

/-- Oracle for the CRM interactions of one complete dispatch: whether the
credentials are configured, whether the phone lookup round trip succeeds and
which contact ids it returns, whether the contact-details fetch succeeds and
the notes stored on that contact, and whether the final write succeeds. -/
structure GhlOracle where
  credsOk : Bool
  searchOk : Bool
  contacts : List String
  getOk : Bool
  existingNotes : Option String
  respOk : Bool
deriving DecidableEq

/-- Trace of one complete dispatch: the phone digits used for the lookup, the
final write issued, and whether that write succeeded. -/
structure GhlOutcome where
  lookupPhone : String
  call : GhlCall
  ok : Bool
deriving DecidableEq

/-- sendToGoHighLevel of the complete route: none models the throw on missing
credentials, before any network call. Otherwise the dispatch looks up the
contact by phone digits; on a successful lookup with a hit it re-fetches the
contact and, when that fetch succeeds and yields truthy notes, prepends them
to the new block, then updates; on an empty hit list or a failed lookup it
creates a new contact. -/
def sendToGoHighLevel (d : CompletePayload) (o : GhlOracle) (nowStr : String) :
    Option GhlOutcome :=
  if !o.credsOk then none
  else
    let phone := if truthy d.phone then digitsOf (d.phone.getD "") else ""
    let notes := completeNotes d nowStr
    some (if o.searchOk then
      match o.contacts with
      | contactId :: _ =>
        let finalNotes :=
          if o.getOk then
            if truthy o.existingNotes then o.existingNotes.getD "" ++ "\n\n" ++ notes
            else notes
          else notes
        ⟨phone, GhlCall.update contactId finalNotes, o.respOk⟩
      | [] => ⟨phone, GhlCall.create notes, o.respOk⟩
    else ⟨phone, GhlCall.create notes, o.respOk⟩)

/-- Observable outcome of one call to the complete POST handler. -/
structure CompleteRouteResult where
  status : Nat
  crmCalled : Bool
  outcome : Option GhlOutcome
deriving DecidableEq

/-- POST handler of the complete-submission route. A validation failure is a
thrown error that the outer catch turns into status 500; the 400 branch needs
validateFormData to return false, which it never does. -/
def submitCompletePOST (rateLimitOk : Bool) (body : Option CompletePayload)
    (o : GhlOracle) (nowStr : String) : CompleteRouteResult :=
  if !rateLimitOk then ⟨429, false, none⟩
  else
    match body with
    | none => ⟨400, false, none⟩
    | some d =>
      match validateFormData d with
      | Except.error _ => ⟨500, false, none⟩
      | Except.ok v =>
        if !v then ⟨400, false, none⟩
        else
          match sendToGoHighLevel d o nowStr with
          | none => ⟨500, false, none⟩
          | some out => if out.ok then ⟨200, true, some out⟩ else ⟨500, true, some out⟩

/-- A complete payload with every required field except email, used as the
failing input of C1. -/
def payloadMissingEmail : CompletePayload :=
  { address := some "123 Main St", phone := some "(555) 555-5555",
    firstName := some "Jane", lastName := some "Doe", email := none,
    propertyCondition := some "Good", timeframe := some "ASAP",
    price := some "100000", leadId := some "lead_1_a", streetAddress := none,
    city := none, state := none, postalCode := none, placeId := none,
    isPropertyListed := false, comments := none, referralSource := none,
    timestamp := none }

/-- C1 evaluation at the failing input: a complete payload missing the email
field is answered with status 500, not 400, because validateFormData throws
and the outer catch maps the throw to 500; no CRM request is issued. -/
theorem submitComplete_missing_field_returns_500 (o : GhlOracle) (nowStr : String) :
    validateFormData payloadMissingEmail = Except.error "email is required" ∧
    (submitCompletePOST true (some payloadMissingEmail) o nowStr).status = 500 ∧
    (submitCompletePOST true (some payloadMissingEmail) o nowStr).crmCalled = false := by
  have hv : validateFormData payloadMissingEmail = Except.error "email is required" := rfl
  refine ⟨hv, ?_, ?_⟩ <;> simp [submitCompletePOST, hv]

/-- A fully populated valid complete payload, used by the C3 theorems. -/
def validPayload : CompletePayload :=
  { address := some "123 Main St", phone := some "(555) 555-5555",
    firstName := some "Jane", lastName := some "Doe", email := some "jane@example.com",
    propertyCondition := some "Good", timeframe := some "ASAP",
    price := some "100000", leadId := some "lead_1_a", streetAddress := none,
    city := none, state := none, postalCode := none, placeId := none,
    isPropertyListed := false, comments := none, referralSource := none,
    timestamp := none }

/-- C3 (amended): with credentials configured, the dispatch looks the contact
up by the phone digits; on a hit it issues an update whose notes are the
stored notes followed by a blank line and the new block when the details
fetch succeeds and yields truthy notes, and just the new block when the
details fetch fails or yields no notes; on an empty hit list or a failed
lookup it creates a new contact with the new block. -/
theorem sendToGoHighLevel_lookup_and_append (d : CompletePayload) (o : GhlOracle)
    (nowStr : String) (hcreds : o.credsOk = true) :
    ∃ out : GhlOutcome, sendToGoHighLevel d o nowStr = some out ∧
      out.lookupPhone = (if truthy d.phone then digitsOf (d.phone.getD "") else "") ∧
      (∀ cid rest, o.searchOk = true → o.contacts = cid :: rest →
        out.call = GhlCall.update cid
          (if o.getOk && truthy o.existingNotes
            then o.existingNotes.getD "" ++ "\n\n" ++ completeNotes d nowStr
            else completeNotes d nowStr)) ∧
      (o.searchOk = true → o.contacts = [] →
        out.call = GhlCall.create (completeNotes d nowStr)) ∧
      (o.searchOk = false → out.call = GhlCall.create (completeNotes d nowStr)) := by
  unfold sendToGoHighLevel
  rw [hcreds]
  simp only [Bool.not_true, Bool.false_eq_true, if_false]
  refine ⟨_, rfl, ?_, ?_, ?_, ?_⟩
  · cases hs : o.searchOk <;> cases hc : o.contacts <;> simp [hs, hc]
  · intro cid rest hs hc
    rw [hs, hc]
    cases hg : o.getOk <;> cases hn : truthy o.existingNotes <;> simp [hg, hn]
  · intro hs hc
    simp [hs, hc]
  · intro hs
    simp [hs]

/-- C3 witness: at a concrete payload and an oracle where the lookup finds a
contact whose stored notes are truthy and the details fetch succeeds, the
dispatch issues an update carrying the old notes followed by the new block. -/
theorem sendToGoHighLevel_lookup_and_append_witness :
    ∃ out : GhlOutcome,
      sendToGoHighLevel validPayload
          ⟨true, true, ["contact-1"], true, some "OLD NOTES", true⟩ "1/1/2025"
        = some out ∧
      out.call = GhlCall.update "contact-1"
        ("OLD NOTES" ++ "\n\n" ++ completeNotes validPayload "1/1/2025") := by
  obtain ⟨out, heq, _, hupd, _, _⟩ := sendToGoHighLevel_lookup_and_append validPayload
    ⟨true, true, ["contact-1"], true, some "OLD NOTES", true⟩ "1/1/2025" rfl
  refine ⟨out, heq, ?_⟩
  have h := hupd "contact-1" [] rfl rfl
  simpa using h

set_option maxRecDepth 4000 in
/-- C3 counterexample: the lookup finds a contact that carries stored notes,
but the contact-details fetch fails; the update is issued with only the new
block, so the stored notes are not preserved in the written notes field. -/
theorem sendToGoHighLevel_notes_discarded_counterexample :
    ∃ out : GhlOutcome,
      sendToGoHighLevel validPayload
          ⟨true, true, ["contact-1"], false, some "OLD NOTES", true⟩ "1/1/2025"
        = some out ∧
      out.call = GhlCall.update "contact-1" (completeNotes validPayload "1/1/2025") ∧
      ¬ List.IsPrefix ("OLD NOTES").data (completeNotes validPayload "1/1/2025").data := by
  refine ⟨⟨digitsOf "(555) 555-5555", GhlCall.update "contact-1"
    (completeNotes validPayload "1/1/2025"), true⟩, ?_, rfl, ?_⟩
  · rfl
  · decide

end SubmitComplete

namespace PropertyForm

/-- The field-level and submission-level error slots of the form component. -/
structure FormErrors where
  address : Option String
  phone : Option String
  consent : Option String
  submit : Option String
  phoneApi : Option String
deriving DecidableEq

/-- The shared form data held in the form context. -/
structure FormState where
  address : Option String
  phone : Option String
  consent : Bool
  leadId : Option String
  carrier : Option String
  phoneLineType : Option String
deriving DecidableEq

/-- The component state of PropertyForm: form data, step number, the busy
flags, the error slots and the touched flags. -/
structure ComponentState where
  form : FormState
  step : Nat
  isSubmitting : Bool
  errors : FormErrors
  touchedAddress : Bool
  touchedPhone : Bool
  touchedConsent : Bool
  isPhoneValidating : Bool
  isPhoneApiValidated : Bool
deriving DecidableEq

/-- validatePhoneFormat of the component. -/
def validatePhoneFormat (phone : String) : Bool := phoneRegexTest phone

/-- The trim method of JavaScript strings: whitespace stripped from both
ends, written structurally over the character list. -/
def jsTrim (s : String) : String :=
  String.mk (((s.data.dropWhile Char.isWhitespace).reverse.dropWhile
    Char.isWhitespace).reverse)

/-- handlePhoneChange: re-format the raw input, store it, reset the
API-validated flag, and queue a functional update clearing the API error
slot; when the field was already touched, a second, non-functional setErrors
then replaces the whole error state with newErrors, a copy of the stale
render snapshot of errors with only the phone slot recomputed — so that
replacement clobbers the queued phoneApi clearing and restores the prior
phoneApi value. -/
def handlePhoneChange (s : ComponentState) (inputValue : String) : ComponentState :=
  let formatted := formatPhoneNumber inputValue
  let form1 := { s.form with phone := some formatted }
  let errs1 := { s.errors with phoneApi := none }
  let s1 := { s with form := form1, isPhoneApiValidated := false, errors := errs1 }
  let phoneErr : Option String :=
    if validatePhoneFormat formatted then none
    else some "Please enter a valid phone number format (XXX) XXX-XXXX"
  let newErrors := { s.errors with phone := phoneErr }
  if s1.touchedPhone then { s1 with errors := newErrors }
  else s1

/-- Oracle for one round trip of validateNumverify through the proxy route:
a network error, a non-ok or empty response, a number the provider rejects,
a number that is valid but not an acceptable lead, or full success with the
enrichment values. -/
inductive NvOracle where
  | netError
  | badResponse (errMsg : Option String)
  | invalid
  | notLead
  | ok (carrier lineType : String)
deriving DecidableEq

/-- validateNumverify of the component: pre-check the display format, then
call the proxy; on success store the enrichment fields into the form data,
on any failure set the phoneApi error slot. Returns the updated state and
whether verification passed. -/
def validateNumverify (s : ComponentState) (phoneNumber : String) (o : NvOracle) :
    ComponentState × Bool :=
  if validatePhoneFormat phoneNumber = false then
    let e0 := { s.errors with phoneApi := some "Invalid phone number format for API validation." }
    ({ s with errors := e0, isPhoneApiValidated := true }, false)
  else
    let e1 := { s.errors with phoneApi := none }
    let s1 := { s with isPhoneValidating := true, errors := e1 }
    match o with
    | NvOracle.netError =>
      let e2 := { e1 with phoneApi := some "Could not validate phone number. Check connection." }
      ({ s1 with errors := e2, isPhoneApiValidated := true, isPhoneValidating := false }, false)
    | NvOracle.badResponse errMsg =>
      let e2 := { e1 with phoneApi := some (jsOr errMsg "Phone validation service failed.") }
      ({ s1 with errors := e2, isPhoneApiValidated := true, isPhoneValidating := false }, false)
    | NvOracle.invalid =>
      let e2 := { e1 with phoneApi := some "This phone number appears to be invalid." }
      ({ s1 with errors := e2, isPhoneApiValidated := true, isPhoneValidating := false }, false)
    | NvOracle.notLead =>
      let e2 := { e1 with phoneApi := some "Please provide a personal mobile or landline number. Business numbers are not accepted." }
      ({ s1 with errors := e2, isPhoneApiValidated := true, isPhoneValidating := false }, false)
    | NvOracle.ok carrier lineType =>
      let f2 := { s1.form with carrier := some carrier, phoneLineType := some lineType }
      ({ s1 with errors := e1, form := f2, isPhoneApiValidated := true, isPhoneValidating := false }, true)

/-- Oracle for the fetch to the partial-submission endpoint inside
handleSubmit: any thrown or surfaced error with its message, or success with
the returned leadId. -/
inductive SubmitOracle where
  | failure (msg : String)
  | success (leadId : String)
deriving DecidableEq

/-- handleSubmit of the component: mark everything touched, run the basic
checks, then re-verify the phone through the proxy, then post to the partial
endpoint; on success store the leadId and navigate. Returns the final state
and whether navigation happened. -/
def handleSubmit (s0 : ComponentState) (nv : NvOracle) (sub : SubmitOracle) :
    ComponentState × Bool :=
  let s := { s0 with touchedAddress := true, touchedPhone := true, touchedConsent := true, isSubmitting := true }
  let addrFail := !truthy (s.form.address.map jsTrim)
  let phoneMissing := !truthy s.form.phone
  let phoneBad := !phoneMissing && !validatePhoneFormat (s.form.phone.getD "")
  let consentFail := !s.form.consent
  let localAddress : Option String := if addrFail then some "Address is required" else none
  let localPhone : Option String :=
    if phoneMissing then some "Phone number is required"
    else if phoneBad then some "Invalid phone format. Please use (XXX) XXX-XXXX"
    else none
  let localConsent : Option String := if consentFail then some "You must consent to be contacted" else none
  let basicPassed := !addrFail && !phoneMissing && !phoneBad && !consentFail
  if basicPassed = false then
    let merged : FormErrors :=
      ⟨localAddress.or s.errors.address, localPhone.or s.errors.phone,
        localConsent.or s.errors.consent, s.errors.submit, s.errors.phoneApi⟩
    ({ s with errors := merged, isSubmitting := false }, false)
  else
    let s1 := { s with isPhoneValidating := true }
    let vres := validateNumverify s1 (s1.form.phone.getD "") nv
    let s2 := vres.1
    if vres.2 = false then
      let e4 := { s2.errors with phoneApi := some (jsOr s2.errors.phoneApi "Phone number validation failed.") }
      ({ s2 with errors := e4, isSubmitting := false }, false)
    else
      let s3 := { s2 with errors := (⟨none, none, none, none, none⟩ : FormErrors) }
      match sub with
      | SubmitOracle.failure msg =>
        let e5 := { s3.errors with submit := some msg }
        ({ s3 with errors := e5, isSubmitting := false }, false)
      | SubmitOracle.success leadId =>
        let f5 := { s3.form with leadId := some leadId }
        ({ s3 with form := f5, isSubmitting := false }, true)

/-- The disabled condition of the submit button. -/
def submitDisabled (s : ComponentState) : Bool :=
  s.isSubmitting || s.isPhoneValidating || s.errors.phoneApi.isSome ||
    s.errors.phone.isSome || s.errors.address.isSome || s.errors.consent.isSome

/-- The guard of the onClick handler that fires the conversion-tracking
event: phone and consent present and truthy, no phone or phoneApi error, and
no request in flight. -/
def conversionGuard (s : ComponentState) : Bool :=
  truthy s.form.phone && s.form.consent && !s.errors.phone.isSome &&
    !s.errors.phoneApi.isSome && !s.isSubmitting && !s.isPhoneValidating

/-- One click on the enabled submit button: the conversion event fires when
the onClick guard holds, then handleSubmit runs. Returns (fired, final
state, navigated). -/
def clickSubmit (s : ComponentState) (nv : NvOracle) (sub : SubmitOracle) :
    Bool × ComponentState × Bool :=
  (conversionGuard s, handleSubmit s nv sub)

/-- C6 (amended): every phone keystroke re-formats and stores the phone and
resets the API-validated flag, forcing a re-verification before submission;
but neither the enrichment fields carrier and phoneLineType nor, on a
touched phone field, the phoneApi error are cleared — the touched branch
replaces the error state from the stale snapshot, restoring the prior
phoneApi value, and phoneApi is cleared only when the field was never
touched. -/
theorem handlePhoneChange_resets_verification_not_enrichment
    (s : ComponentState) (v : String) :
    (handlePhoneChange s v).isPhoneApiValidated = false
    ∧ (handlePhoneChange s v).errors.phoneApi
        = (if s.touchedPhone then s.errors.phoneApi else none)
    ∧ (handlePhoneChange s v).form.phone = some (formatPhoneNumber v)
    ∧ (handlePhoneChange s v).form.carrier = s.form.carrier
    ∧ (handlePhoneChange s v).form.phoneLineType = s.form.phoneLineType := by
  unfold handlePhoneChange
  by_cases ht : s.touchedPhone <;> simp [ht]

/-- A component state sitting on the phone step with enrichment fields
already set by an earlier verification. -/
def enrichedState : ComponentState :=
  ⟨⟨some "123 Main St", some "(555) 123-4567", true, none, some "Verizon", some "mobile"⟩,
    2, false, ⟨none, none, none, none, none⟩, true, true, true, false, true⟩

/-- C6 counterexample: deleting a digit changes the phone digits, yet the
carrier and phoneLineType enrichment values from the earlier verification
stay in the form state instead of being cleared. -/
theorem handlePhoneChange_stale_enrichment_counterexample :
    digitsOf ((handlePhoneChange enrichedState "(555) 123-456").form.phone.getD "")
      ≠ digitsOf (enrichedState.form.phone.getD "") ∧
    (handlePhoneChange enrichedState "(555) 123-456").form.carrier = some "Verizon" ∧
    (handlePhoneChange enrichedState "(555) 123-456").form.phoneLineType
      = some "mobile" := by
  refine ⟨?_, ?_, ?_⟩ <;> decide

/-- Navigation out of handleSubmit needs a truthy phone and consent. -/
lemma handleSubmit_nav_needs_phone_consent (s : ComponentState) (nv : NvOracle)
    (sub : SubmitOracle) (h : (handleSubmit s nv sub).2 = true) :
    truthy s.form.phone = true ∧ s.form.consent = true := by
  by_cases hp : truthy s.form.phone
  · by_cases hc : s.form.consent
    · exact ⟨hp, hc⟩
    · exfalso
      simp [handleSubmit, hp, hc] at h
  · exfalso
    simp [handleSubmit, hp] at h

/-- C7 (amended): on a click of the enabled submit button the conversion
event fires exactly when the onClick guard holds (phone and consent present,
no phone errors, nothing in flight), before the submission outcome is known;
every successful submission via the button has the event fired, but the
event can also fire for attempts that then fail. -/
theorem clickSubmit_conversion_guard_and_success (s : ComponentState)
    (nv : NvOracle) (sub : SubmitOracle) (hdis : submitDisabled s = false) :
    ((clickSubmit s nv sub).1 = conversionGuard s)
    ∧ ((clickSubmit s nv sub).2.2 = true → (clickSubmit s nv sub).1 = true) := by
  refine ⟨rfl, ?_⟩
  intro hnav
  obtain ⟨hp, hc⟩ := handleSubmit_nav_needs_phone_consent s nv sub hnav
  simp only [submitDisabled, Bool.or_eq_false_iff] at hdis
  show conversionGuard s = true
  simp [conversionGuard, hp, hc, hdis.1.1.1.1.1, hdis.1.1.1.1.2, hdis.1.1.1.2,
    hdis.1.1.2, hdis.1.2, hdis.2]

/-- A component state on the phone step with phone and consent filled but no
address, so the click guard passes while basic validation cannot. -/
def noAddressState : ComponentState :=
  ⟨⟨none, some "(555) 123-4567", true, none, none, none⟩,
    2, false, ⟨none, none, none, none, none⟩, false, true, false, false, false⟩

/-- C7 counterexample: on a state with no address the button is enabled and
the conversion event fires on click, yet the submission attempt fails basic
validation and never succeeds, so the event does not fire only on success. -/
theorem clickSubmit_conversion_without_success_counterexample :
    submitDisabled noAddressState = false ∧
    (clickSubmit noAddressState (NvOracle.ok "Verizon" "mobile")
        (SubmitOracle.success "lead_1_a")).1 = true ∧
    (clickSubmit noAddressState (NvOracle.ok "Verizon" "mobile")
        (SubmitOracle.success "lead_1_a")).2.2 = false := by
  refine ⟨?_, ?_, ?_⟩ <;> decide

/-- C7 witness: on a fully filled enabled state, the theorem instantiates to
the concrete guard equation and the success-implies-fired implication. -/
theorem clickSubmit_conversion_guard_and_success_witness :
    ((clickSubmit
        ⟨⟨some "123 Main St", some "(555) 123-4567", true, none, none, none⟩,
          2, false, ⟨none, none, none, none, none⟩, true, true, true, false, false⟩
        (NvOracle.ok "Verizon" "mobile") (SubmitOracle.success "lead_1_a")).1
      = conversionGuard
        ⟨⟨some "123 Main St", some "(555) 123-4567", true, none, none, none⟩,
          2, false, ⟨none, none, none, none, none⟩, true, true, true, false, false⟩)
    ∧ ((clickSubmit
        ⟨⟨some "123 Main St", some "(555) 123-4567", true, none, none, none⟩,
          2, false, ⟨none, none, none, none, none⟩, true, true, true, false, false⟩
        (NvOracle.ok "Verizon" "mobile") (SubmitOracle.success "lead_1_a")).2.2 = true →
      (clickSubmit
        ⟨⟨some "123 Main St", some "(555) 123-4567", true, none, none, none⟩,
          2, false, ⟨none, none, none, none, none⟩, true, true, true, false, false⟩
        (NvOracle.ok "Verizon" "mobile") (SubmitOracle.success "lead_1_a")).1 = true) :=
  clickSubmit_conversion_guard_and_success
    ⟨⟨some "123 Main St", some "(555) 123-4567", true, none, none, none⟩,
      2, false, ⟨none, none, none, none, none⟩, true, true, true, false, false⟩
    (NvOracle.ok "Verizon" "mobile") (SubmitOracle.success "lead_1_a") (by decide)

/-- C9: whenever handleSubmit does not navigate (basic validation failure,
phone verification failure, or submission failure), the final state carries a
visible error in one of the error slots, the step is unchanged, and the
entered address, phone and consent are unchanged. -/
theorem handleSubmit_failure_keeps_data_and_step (s : ComponentState)
    (nv : NvOracle) (sub : SubmitOracle) (h : (handleSubmit s nv sub).2 = false) :
    ((handleSubmit s nv sub).1.errors.address.isSome
      || (handleSubmit s nv sub).1.errors.phone.isSome
      || (handleSubmit s nv sub).1.errors.consent.isSome
      || (handleSubmit s nv sub).1.errors.phoneApi.isSome
      || (handleSubmit s nv sub).1.errors.submit.isSome) = true
    ∧ (handleSubmit s nv sub).1.step = s.step
    ∧ (handleSubmit s nv sub).1.form.address = s.form.address
    ∧ (handleSubmit s nv sub).1.form.phone = s.form.phone
    ∧ (handleSubmit s nv sub).1.form.consent = s.form.consent := by
  by_cases ha : truthy (s.form.address.map jsTrim) <;>
    by_cases hp : truthy s.form.phone <;>
      by_cases hf : validatePhoneFormat (s.form.phone.getD "") <;>
        by_cases hc : s.form.consent <;>
          cases nv <;> cases sub <;>
            simp [handleSubmit, validateNumverify, ha, hp, hf, hc, Option.or] at h ⊢

/-- C9 witness: at a concrete fully filled state whose network submission
fails, the error is surfaced in the submit slot and address, phone, consent
and the step survive unchanged. -/
theorem handleSubmit_failure_keeps_data_and_step_witness :
    ((handleSubmit
        ⟨⟨some "123 Main St", some "(555) 123-4567", true, none, none, none⟩,
          2, false, ⟨none, none, none, none, none⟩, true, true, true, false, false⟩
        (NvOracle.ok "Verizon" "mobile")
        (SubmitOracle.failure "API error: 500")).1.errors.address.isSome
      || (handleSubmit
        ⟨⟨some "123 Main St", some "(555) 123-4567", true, none, none, none⟩,
          2, false, ⟨none, none, none, none, none⟩, true, true, true, false, false⟩
        (NvOracle.ok "Verizon" "mobile")
        (SubmitOracle.failure "API error: 500")).1.errors.phone.isSome
      || (handleSubmit
        ⟨⟨some "123 Main St", some "(555) 123-4567", true, none, none, none⟩,
          2, false, ⟨none, none, none, none, none⟩, true, true, true, false, false⟩
        (NvOracle.ok "Verizon" "mobile")
        (SubmitOracle.failure "API error: 500")).1.errors.consent.isSome
      || (handleSubmit
        ⟨⟨some "123 Main St", some "(555) 123-4567", true, none, none, none⟩,
          2, false, ⟨none, none, none, none, none⟩, true, true, true, false, false⟩
        (NvOracle.ok "Verizon" "mobile")
        (SubmitOracle.failure "API error: 500")).1.errors.phoneApi.isSome
      || (handleSubmit
        ⟨⟨some "123 Main St", some "(555) 123-4567", true, none, none, none⟩,
          2, false, ⟨none, none, none, none, none⟩, true, true, true, false, false⟩
        (NvOracle.ok "Verizon" "mobile")
        (SubmitOracle.failure "API error: 500")).1.errors.submit.isSome) = true
    ∧ (handleSubmit
        ⟨⟨some "123 Main St", some "(555) 123-4567", true, none, none, none⟩,
          2, false, ⟨none, none, none, none, none⟩, true, true, true, false, false⟩
        (NvOracle.ok "Verizon" "mobile")
        (SubmitOracle.failure "API error: 500")).1.step =
      (⟨⟨some "123 Main St", some "(555) 123-4567", true, none, none, none⟩,
          2, false, ⟨none, none, none, none, none⟩, true, true, true, false, false⟩ :
        ComponentState).step
    ∧ (handleSubmit
        ⟨⟨some "123 Main St", some "(555) 123-4567", true, none, none, none⟩,
          2, false, ⟨none, none, none, none, none⟩, true, true, true, false, false⟩
        (NvOracle.ok "Verizon" "mobile")
        (SubmitOracle.failure "API error: 500")).1.form.address =
      (⟨⟨some "123 Main St", some "(555) 123-4567", true, none, none, none⟩,
          2, false, ⟨none, none, none, none, none⟩, true, true, true, false, false⟩ :
        ComponentState).form.address
    ∧ (handleSubmit
        ⟨⟨some "123 Main St", some "(555) 123-4567", true, none, none, none⟩,
          2, false, ⟨none, none, none, none, none⟩, true, true, true, false, false⟩
        (NvOracle.ok "Verizon" "mobile")
        (SubmitOracle.failure "API error: 500")).1.form.phone =
      (⟨⟨some "123 Main St", some "(555) 123-4567", true, none, none, none⟩,
          2, false, ⟨none, none, none, none, none⟩, true, true, true, false, false⟩ :
        ComponentState).form.phone
    ∧ (handleSubmit
        ⟨⟨some "123 Main St", some "(555) 123-4567", true, none, none, none⟩,
          2, false, ⟨none, none, none, none, none⟩, true, true, true, false, false⟩
        (NvOracle.ok "Verizon" "mobile")
        (SubmitOracle.failure "API error: 500")).1.form.consent =
      (⟨⟨some "123 Main St", some "(555) 123-4567", true, none, none, none⟩,
          2, false, ⟨none, none, none, none, none⟩, true, true, true, false, false⟩ :
        ComponentState).form.consent :=
  handleSubmit_failure_keeps_data_and_step
    ⟨⟨some "123 Main St", some "(555) 123-4567", true, none, none, none⟩,
      2, false, ⟨none, none, none, none, none⟩, true, true, true, false, false⟩
    (NvOracle.ok "Verizon" "mobile") (SubmitOracle.failure "API error: 500")
    (by decide)

end PropertyForm

end GSB
